import Mathlib

/-!
Shallow embedding of the MyHealthAI backend (`server.ts` plus the SQLite
schema in `db.ts`): the credential store, the JWT issue/verify envelope,
the chat-session registry, the chat-history log, the report store, and the
HTTP access layer that routes every protected endpoint through the
`authenticateToken` middleware.

Modelling conventions:
  * the SQLite database is a `Store` of four tables (lists of rows) plus
    the per-table AUTOINCREMENT counters;
  * `DATETIME DEFAULT CURRENT_TIMESTAMP` becomes a `now : Nat` argument
    supplied to each inserting handler;
  * `bcrypt.hash`/`bcrypt.compare` are modelled functionally: a hash is a
    (password, salt) pair and compare checks the recorded password, which
    captures bcrypt up to collisions;
  * `jwt.sign`/`jwt.verify` are modelled functionally: a token carries its
    claims plus a MAC value, the MAC of a secret and claims is the pair
    itself, and verification recomputes and compares it;
  * SQL `ORDER BY created_at` is insertion sort by the timestamp key
    (SQLite fixes no tie-breaking order, and no claim depends on one);
  * nullable TEXT columns become `Option String`.
-/

namespace MyHealthAI

/-! ### bcrypt model -/

/-- A bcrypt hash: records the hashed password and the salt.  `bcrypt.hash`
never exposes the password except through `compare`, which this model
reflects by only ever reading `pw` inside `bcryptCompare`. -/
structure HashedPw where
  pw : String
  salt : Nat
deriving DecidableEq

def bcryptHash (password : String) (salt : Nat) : HashedPw :=
  ⟨password, salt⟩

def bcryptCompare (password : String) (h : HashedPw) : Bool :=
  h.pw == password

/-! ### JWT model -/

/-- The claims `jwt.sign({ id: user.id, email: user.email }, JWT_SECRET)`
places in a token. -/
structure Claims where
  id : Nat
  email : String
deriving DecidableEq

/-- A bearer token: claims plus a signature value.  A token is correctly
signed under `secret` exactly when its signature equals the MAC of the
secret and its own claims. -/
structure Token where
  claims : Claims
  sig : String × Claims
deriving DecidableEq

def jwtSign (secret : String) (c : Claims) : Token :=
  ⟨c, (secret, c)⟩

def jwtVerify (secret : String) (t : Token) : Option Claims :=
  if t.sig = (secret, t.claims) then some t.claims else none

/-- The `Authorization` header, already split at the blank:
`scheme` is the first word ("Bearer" in honest requests, unchecked by the
middleware) and `token` the optional second word. -/
structure AuthzHeader where
  scheme : String
  token : Option Token
deriving DecidableEq

/-- Token extraction, `authHeader && authHeader.split(' ')[1]`: the bearer token of a request,
when both the header and its second word are present. -/
def extractToken (h : Option AuthzHeader) : Option Token :=
  h.bind AuthzHeader.token

/-! ### Database rows and store -/

/-- A row of the `users` table. -/
structure UserRow where
  id : Nat
  email : String
  password : HashedPw
  first_name : Option String
  last_name : Option String
  mobile : Option String
  blood_group : Option String
  personal_notes : Option String
  created_at : Nat
deriving DecidableEq

/-- A row of the `chat_sessions` table. -/
structure SessionRow where
  id : Nat
  user_id : Nat
  title : String
  created_at : Nat
deriving DecidableEq

/-- A row of the `chat_history` table; `session_id` is nullable. -/
structure HistoryRow where
  id : Nat
  user_id : Nat
  session_id : Option Nat
  role : String
  content : String
  created_at : Nat
deriving DecidableEq

/-- A row of the `medical_reports` table. -/
structure ReportRow where
  id : Nat
  user_id : Nat
  filename : String
  analysis : String
  created_at : Nat
deriving DecidableEq

/-- The SQLite database: the four tables plus AUTOINCREMENT counters. -/
structure Store where
  users : List UserRow
  sessions : List SessionRow
  history : List HistoryRow
  reports : List ReportRow
  nextUserId : Nat
  nextSessionId : Nat
  nextHistoryId : Nat
  nextReportId : Nat
deriving DecidableEq

def emptyStore : Store :=
  ⟨[], [], [], [], 1, 1, 1, 1⟩

/-! ### SQL ORDER BY -/

/-- Comparison for `ORDER BY k ASC`. -/
def leKey (k : α → Nat) : α → α → Prop :=
  fun a b => k a ≤ k b

/-- Comparison for `ORDER BY k DESC`. -/
def geKey (k : α → Nat) : α → α → Prop :=
  fun a b => k b ≤ k a

instance (k : α → Nat) : DecidableRel (leKey k) :=
  fun a b => Nat.decLe (k a) (k b)

instance (k : α → Nat) : DecidableRel (geKey k) :=
  fun a b => Nat.decLe (k b) (k a)

instance (k : α → Nat) : IsTotal α (leKey k) :=
  ⟨fun a b => Nat.le_total (k a) (k b)⟩

instance (k : α → Nat) : IsTotal α (geKey k) :=
  ⟨fun a b => Nat.le_total (k b) (k a)⟩

instance (k : α → Nat) : IsTrans α (leKey k) :=
  ⟨fun _ _ _ hab hbc => Nat.le_trans hab hbc⟩

instance (k : α → Nat) : IsTrans α (geKey k) :=
  ⟨fun _ _ _ hab hbc => Nat.le_trans hbc hab⟩

/-- Model of `SELECT ... ORDER BY created_at ASC`. -/
def orderByAsc (k : α → Nat) (l : List α) : List α :=
  l.insertionSort (leKey k)

/-- Model of `SELECT ... ORDER BY created_at DESC`. -/
def orderByDesc (k : α → Nat) (l : List α) : List α :=
  l.insertionSort (geKey k)

/-! ### HTTP responses -/

/-- The columns `GET /api/user/profile` selects (no `password`). -/
structure UserProfileView where
  id : Nat
  email : String
  first_name : Option String
  last_name : Option String
  mobile : Option String
  blood_group : Option String
  personal_notes : Option String
deriving DecidableEq

/-- The JSON bodies the handlers produce (`res.sendStatus` sends none). -/
inductive Body where
  | empty
  | jsonId (id : Nat)
  | jsonError (msg : String)
  | jsonLogin (token : Token) (id : Nat) (email : String)
      (firstName lastName : Option String)
  | jsonProfile (p : Option UserProfileView)
  | jsonSuccess
  | jsonSessions (rows : List SessionRow)
  | jsonHistory (rows : List HistoryRow)
  | jsonReports (rows : List ReportRow)
deriving DecidableEq

/-- An HTTP response: status code plus JSON body. -/
structure Resp where
  status : Nat
  body : Body
deriving DecidableEq

/-! ### Request bodies -/

structure RegisterReq where
  email : String
  password : String
  firstName : Option String
  lastName : Option String
deriving DecidableEq

structure LoginReq where
  email : String
  password : String
deriving DecidableEq

structure ProfileReq where
  firstName : Option String
  lastName : Option String
  mobile : Option String
  bloodGroup : Option String
  personalNotes : Option String
deriving DecidableEq

structure HistoryReq where
  role : String
  content : String
  sessionId : Option Nat
deriving DecidableEq

/-! ### Endpoint handlers (business logic, after authentication) -/

/-- Handler of `POST /api/auth/register`: hash the password, `INSERT INTO users`;
the UNIQUE constraint on `email` turns a duplicate into a 400. -/
def authRegister (salt now : Nat) (req : RegisterReq) (st : Store) :
    Resp × Store :=
  if st.users.any (fun u => u.email == req.email) then
    (⟨400, .jsonError "An account with this email already exists. Please sign in instead."⟩, st)
  else
    let row : UserRow :=
      ⟨st.nextUserId, req.email, bcryptHash req.password salt,
        req.firstName, req.lastName, none, none, none, now⟩
    (⟨201, .jsonId st.nextUserId⟩,
      { st with users := st.users ++ [row], nextUserId := st.nextUserId + 1 })

/-- Handler of `POST /api/auth/login`: `SELECT * FROM users WHERE email = ?`, compare
the bcrypt hash, sign `{ id, email }`. -/
def authLogin (secret : String) (req : LoginReq) (st : Store) :
    Resp × Store :=
  match st.users.find? (fun u => u.email == req.email) with
  | none => (⟨401, .jsonError "Invalid credentials"⟩, st)
  | some u =>
    if bcryptCompare req.password u.password then
      (⟨200, .jsonLogin (jwtSign secret ⟨u.id, u.email⟩) u.id u.email
          u.first_name u.last_name⟩, st)
    else
      (⟨401, .jsonError "Invalid credentials"⟩, st)

def UserRow.toView (u : UserRow) : UserProfileView :=
  ⟨u.id, u.email, u.first_name, u.last_name, u.mobile, u.blood_group,
    u.personal_notes⟩

/-- Handler of `GET /api/user/profile`: the column list excludes `password`. -/
def userProfileGet (uid : Nat) (st : Store) : Resp × Store :=
  (⟨200, .jsonProfile ((st.users.find? (fun u => u.id == uid)).map
      UserRow.toView)⟩, st)

/-- Handler of `PUT /api/user/profile`: `UPDATE users SET ... WHERE id = ?`. -/
def userProfilePut (uid : Nat) (req : ProfileReq) (st : Store) :
    Resp × Store :=
  (⟨200, .jsonSuccess⟩,
    { st with users := st.users.map (fun u =>
        if u.id == uid then
          { u with
            first_name := req.firstName
            last_name := req.lastName
            mobile := req.mobile
            blood_group := req.bloodGroup
            personal_notes := req.personalNotes }
        else u) })

/-- Handler of `GET /api/chat/sessions`: `WHERE user_id = ? ORDER BY created_at DESC`. -/
def chatSessionsGet (uid : Nat) (st : Store) : Resp × Store :=
  (⟨200, .jsonSessions (orderByDesc SessionRow.created_at
      (st.sessions.filter (fun s => s.user_id == uid)))⟩, st)

/-- Handler of `POST /api/chat/sessions`: `INSERT INTO chat_sessions (user_id, title)`. -/
def chatSessionsPost (now uid : Nat) (title : String) (st : Store) :
    Resp × Store :=
  (⟨200, .jsonId st.nextSessionId⟩,
    { st with
      sessions := st.sessions ++ [⟨st.nextSessionId, uid, title, now⟩],
      nextSessionId := st.nextSessionId + 1 })

/-- Handler of `GET /api/chat/history`: with `sessionId`, filter on user and session;
without it, all of the user's entries.  Both `ORDER BY created_at ASC`. -/
def chatHistoryGet (uid : Nat) (sessionId : Option Nat) (st : Store) :
    Resp × Store :=
  let rows :=
    match sessionId with
    | some sid => st.history.filter
        (fun h => h.user_id == uid && h.session_id == some sid)
    | none => st.history.filter (fun h => h.user_id == uid)
  (⟨200, .jsonHistory (orderByAsc HistoryRow.created_at rows)⟩, st)

/-- Handler of `POST /api/chat/history`: pure insert, no validation of `role`. -/
def chatHistoryPost (now uid : Nat) (req : HistoryReq) (st : Store) :
    Resp × Store :=
  (⟨200, .jsonSuccess⟩,
    { st with
      history := st.history ++
        [⟨st.nextHistoryId, uid, req.sessionId, req.role, req.content, now⟩],
      nextHistoryId := st.nextHistoryId + 1 })

/-- Handler of `POST /api/reports/upload`: filename defaults to "report.pdf" when no
file part arrived. -/
def reportsUpload (now uid : Nat) (file : Option String) (analysis : String)
    (st : Store) : Resp × Store :=
  (⟨200, .jsonSuccess⟩,
    { st with
      reports := st.reports ++
        [⟨st.nextReportId, uid, file.getD "report.pdf", analysis, now⟩],
      nextReportId := st.nextReportId + 1 })

/-- Handler of `GET /api/reports`: `WHERE user_id = ? ORDER BY created_at DESC`. -/
def reportsGet (uid : Nat) (st : Store) : Resp × Store :=
  (⟨200, .jsonReports (orderByDesc ReportRow.created_at
      (st.reports.filter (fun r => r.user_id == uid)))⟩, st)

/-! ### Middleware and routing -/

/-- The `authenticateToken` middleware: no token → `sendStatus(401)`,
verification failure → `sendStatus(403)`, otherwise run the handler with
the verified claims as `req.user`. -/
def authenticateToken (secret : String) (auth : Option AuthzHeader)
    (st : Store) (handler : Claims → Resp × Store) : Resp × Store :=
  match extractToken auth with
  | none => (⟨401, .empty⟩, st)
  | some t =>
    match jwtVerify secret t with
    | none => (⟨403, .empty⟩, st)
    | some c => handler c

/-- The API routes of `server.ts`, with their request payloads. -/
inductive Route where
  | register (req : RegisterReq)
  | login (req : LoginReq)
  | profileGet
  | profilePut (req : ProfileReq)
  | sessionsGet
  | sessionsPost (title : String)
  | historyGet (sessionId : Option Nat)
  | historyPost (req : HistoryReq)
  | reportUpload (file : Option String) (analysis : String)
  | reportsList
deriving DecidableEq

/-- Every route except registration and login sits behind the middleware. -/
def Route.isProtected : Route → Bool
  | .register _ => false
  | .login _ => false
  | _ => true

/-- The HTTP access layer: route dispatch as wired up in `server.ts`.
`authenticateToken` is installed on every route except the two auth ones. -/
def dispatch (secret : String) (salt now : Nat) (auth : Option AuthzHeader)
    (r : Route) (st : Store) : Resp × Store :=
  match r with
  | .register req => authRegister salt now req st
  | .login req => authLogin secret req st
  | .profileGet =>
    authenticateToken secret auth st (fun c => userProfileGet c.id st)
  | .profilePut req =>
    authenticateToken secret auth st (fun c => userProfilePut c.id req st)
  | .sessionsGet =>
    authenticateToken secret auth st (fun c => chatSessionsGet c.id st)
  | .sessionsPost title =>
    authenticateToken secret auth st (fun c => chatSessionsPost now c.id title st)
  | .historyGet sessionId =>
    authenticateToken secret auth st (fun c => chatHistoryGet c.id sessionId st)
  | .historyPost req =>
    authenticateToken secret auth st (fun c => chatHistoryPost now c.id req st)
  | .reportUpload file analysis =>
    authenticateToken secret auth st (fun c => reportsUpload now c.id file analysis st)
  | .reportsList =>
    authenticateToken secret auth st (fun c => reportsGet c.id st)

/-! ### Sequences of history appends -/

/-- One `POST /api/chat/history` call of a sequence: the payload fields the
caller controls plus the insertion timestamp. -/
structure AppendReq where
  role : String
  content : String
  now : Nat
deriving DecidableEq

/-- Run a sequence of `POST /api/chat/history` calls by one authenticated
user under one session id, threading the store. -/
def applyAppends (uid : Nat) (sid : Option Nat) (st : Store) :
    List AppendReq → Store
  | [] => st
  | a :: rest =>
    applyAppends uid sid
      (chatHistoryPost a.now uid ⟨a.role, a.content, sid⟩ st).2 rest

/-- The rows a sequence of appends inserts, starting from AUTOINCREMENT
value `nid`. -/
def mkRows (uid : Nat) (sid : Option Nat) : Nat → List AppendReq → List HistoryRow
  | _, [] => []
  | nid, a :: rest =>
    ⟨nid, uid, sid, a.role, a.content, a.now⟩ :: mkRows uid sid (nid + 1) rest

/-! ### Helper lemmas -/

theorem find?_map_pres {α : Type} (p : α → Bool) (g : α → α)
    (hp : ∀ u, p (g u) = p u) :
    ∀ l : List α, (l.map g).find? p = (l.find? p).map g
  | [] => rfl
  | u :: l => by
    cases hu : p u with
    | true =>
      rw [List.map_cons, List.find?_cons_of_pos _ ((hp u).trans hu),
        List.find?_cons_of_pos _ hu, Option.map_some']
    | false =>
      rw [List.map_cons, List.find?_cons_of_neg _ (by simp [hp u, hu]),
        List.find?_cons_of_neg _ (by simp [hu]), find?_map_pres p g hp l]

theorem filter_conj_nil {α : Type} (p q : α → Bool) :
    ∀ l : List α, l.filter p = [] → l.filter (fun x => p x && q x) = []
  | [], _ => rfl
  | a :: l, h => by
    cases hpa : p a with
    | true => simp [List.filter_cons, hpa] at h
    | false =>
      simp only [List.filter_cons, hpa, Bool.false_and, if_false] at h ⊢
      exact filter_conj_nil p q l h

theorem applyAppends_history (uid : Nat) (sid : Option Nat) :
    ∀ (reqs : List AppendReq) (st : Store),
      (applyAppends uid sid st reqs).history =
        st.history ++ mkRows uid sid st.nextHistoryId reqs
  | [], st => by simp [applyAppends, mkRows]
  | a :: rest, st => by
    have ih := applyAppends_history uid sid rest
      (chatHistoryPost a.now uid ⟨a.role, a.content, sid⟩ st).2
    simp only [chatHistoryPost] at ih
    simp only [applyAppends, chatHistoryPost]
    rw [ih]
    simp [mkRows, List.append_assoc]

theorem mkRows_length (uid : Nat) (sid : Option Nat) :
    ∀ (nid : Nat) (reqs : List AppendReq),
      (mkRows uid sid nid reqs).length = reqs.length
  | _, [] => rfl
  | nid, _ :: rest => by
    simp [mkRows, mkRows_length uid sid (nid + 1) rest]

theorem mkRows_mem (uid : Nat) (sid : Option Nat) :
    ∀ (nid : Nat) (reqs : List AppendReq) (r : HistoryRow),
      r ∈ mkRows uid sid nid reqs → r.user_id = uid ∧ r.session_id = sid
  | _, [], r => by simp [mkRows]
  | nid, a :: rest, r => by
    intro hr
    rcases List.mem_cons.mp hr with h | h
    · subst h; exact ⟨rfl, rfl⟩
    · exact mkRows_mem uid sid (nid + 1) rest r h

theorem mkRows_filter (uid sid nid : Nat) (reqs : List AppendReq) :
    (mkRows uid (some sid) nid reqs).filter
      (fun h => h.user_id == uid && h.session_id == some sid) =
      mkRows uid (some sid) nid reqs := by
  rw [List.filter_eq_self]
  intro r hr
  have := mkRows_mem uid (some sid) nid reqs r hr
  simp [this.1, this.2]

/-! ### Claim theorems -/

/-- C1: on every protected route (every route except register and login),
token verification runs before the business handler: a request with no
bearer token gets status 401, a request whose token fails verification gets
status 403, and in both cases the response carries no body and the store is
untouched — the handler is never executed. -/
theorem protected_routes_verify_before_dispatch
    (secret : String) (salt now : Nat) (auth : Option AuthzHeader)
    (r : Route) (st : Store) (hp : r.isProtected = true) :
    (extractToken auth = none →
      dispatch secret salt now auth r st = (⟨401, .empty⟩, st)) ∧
    (∀ t, extractToken auth = some t → jwtVerify secret t = none →
      dispatch secret salt now auth r st = (⟨403, .empty⟩, st)) := by
  refine ⟨fun h => ?_, fun t ht hv => ?_⟩ <;>
    cases r <;>
      simp_all [dispatch, authenticateToken, Route.isProtected]

/-- Witness for C1 at a concrete protected route: no header at all, and a
header whose token was signed under a different secret. -/
theorem protected_routes_verify_before_dispatch_witness :
    dispatch "super-secret-key" 0 0 none .sessionsGet emptyStore =
      (⟨401, .empty⟩, emptyStore) ∧
    dispatch "super-secret-key" 0 0
        (some ⟨"Bearer", some ⟨⟨1, "a@x.com"⟩, ("other-secret", ⟨1, "a@x.com"⟩)⟩⟩)
        .sessionsGet emptyStore =
      (⟨403, .empty⟩, emptyStore) :=
  ⟨(protected_routes_verify_before_dispatch "super-secret-key" 0 0 none
      .sessionsGet emptyStore rfl).1 rfl,
    (protected_routes_verify_before_dispatch "super-secret-key" 0 0
      (some ⟨"Bearer", some ⟨⟨1, "a@x.com"⟩, ("other-secret", ⟨1, "a@x.com"⟩)⟩⟩)
      .sessionsGet emptyStore rfl).2
      ⟨⟨1, "a@x.com"⟩, ("other-secret", ⟨1, "a@x.com"⟩)⟩ rfl (by decide)⟩

/-- C2: a registration that succeeds with id `uid` is followed by a login
with the same email and password that returns 200 and a token the verifier
accepts with claims `{ id := uid, email }`; and any token that is not
correctly signed under the server secret fails verification. -/
theorem register_login_roundtrip (secret : String) (salt now : Nat)
    (req : RegisterReq) (st st' : Store) (uid : Nat)
    (hreg : authRegister salt now req st = (⟨201, .jsonId uid⟩, st')) :
    (∃ tok fn ln,
      authLogin secret ⟨req.email, req.password⟩ st' =
        (⟨200, .jsonLogin tok uid req.email fn ln⟩, st') ∧
      jwtVerify secret tok = some ⟨uid, req.email⟩) ∧
    (∀ t : Token, t ≠ jwtSign secret t.claims → jwtVerify secret t = none) := by
  constructor
  · cases hany : st.users.any (fun u => u.email == req.email) with
    | true => simp [authRegister, hany] at hreg
    | false =>
      simp only [authRegister, hany, Bool.false_eq_true, if_false,
        Prod.mk.injEq, Resp.mk.injEq, Body.jsonId.injEq] at hreg
      obtain ⟨⟨-, huid⟩, hst⟩ := hreg
      subst huid
      subst hst
      have hnone : st.users.find? (fun u => u.email == req.email) = none :=
        List.find?_eq_none.mpr (fun x hx => by
          simpa using List.any_eq_false.mp hany x hx)
      refine ⟨jwtSign secret ⟨st.nextUserId, req.email⟩, req.firstName,
        req.lastName, ?_, by simp [jwtVerify, jwtSign]⟩
      simp [authLogin, List.find?_append, hnone, List.find?_cons,
        bcryptCompare, bcryptHash]
  · intro t ht
    have hc : t.sig ≠ (secret, t.claims) := by
      intro hc
      exact ht (by cases t with
        | mk c s => exact congrArg (Token.mk c) hc)
    simp [jwtVerify, hc]

/-- Witness for C2: register a concrete user into the empty store, then
log in with the same credentials. -/
theorem register_login_roundtrip_witness :
    ∃ tok fn ln,
      authLogin "super-secret-key" ⟨"a@x.com", "pw1"⟩
          (authRegister 11 100 ⟨"a@x.com", "pw1", some "A", some "B"⟩
            emptyStore).2 =
        (⟨200, .jsonLogin tok 1 "a@x.com" fn ln⟩,
          (authRegister 11 100 ⟨"a@x.com", "pw1", some "A", some "B"⟩
            emptyStore).2) ∧
      jwtVerify "super-secret-key" tok = some ⟨1, "a@x.com"⟩ :=
  (register_login_roundtrip "super-secret-key" 11 100
    ⟨"a@x.com", "pw1", some "A", some "B"⟩ emptyStore
    (authRegister 11 100 ⟨"a@x.com", "pw1", some "A", some "B"⟩ emptyStore).2
    1 (by decide)).1

/-- C3: when some user with the request's email is already registered, the
second registration returns 400 with the duplicate-account error and leaves
the store — in particular the existing user's whole row — unchanged. -/
theorem duplicate_register_rejected (salt now : Nat) (req : RegisterReq)
    (st : Store) (u : UserRow) (hu : u ∈ st.users)
    (he : u.email = req.email) :
    authRegister salt now req st =
      (⟨400, .jsonError "An account with this email already exists. Please sign in instead."⟩,
        st) ∧
    u ∈ (authRegister salt now req st).2.users := by
  have hany : st.users.any (fun x => x.email == req.email) = true :=
    List.any_eq_true.mpr ⟨u, hu, by simp [he]⟩
  refine ⟨by simp [authRegister, hany], ?_⟩
  simpa [authRegister, hany] using hu

/-- Witness for C3: register a user, then register the same email again
with a different password; the store after the failed call is the store
after the first registration. -/
theorem duplicate_register_rejected_witness :
    authRegister 12 200 ⟨"a@x.com", "pw2", none, none⟩
        (authRegister 11 100 ⟨"a@x.com", "pw1", some "A", some "B"⟩
          emptyStore).2 =
      (⟨400, .jsonError "An account with this email already exists. Please sign in instead."⟩,
        (authRegister 11 100 ⟨"a@x.com", "pw1", some "A", some "B"⟩
          emptyStore).2) ∧
    (⟨1, "a@x.com", ⟨"pw1", 11⟩, some "A", some "B", none, none, none, 100⟩ : UserRow) ∈
      (authRegister 12 200 ⟨"a@x.com", "pw2", none, none⟩
        (authRegister 11 100 ⟨"a@x.com", "pw1", some "A", some "B"⟩
          emptyStore).2).2.users :=
  duplicate_register_rejected 12 200 ⟨"a@x.com", "pw2", none, none⟩
    (authRegister 11 100 ⟨"a@x.com", "pw1", some "A", some "B"⟩ emptyStore).2
    ⟨1, "a@x.com", ⟨"pw1", 11⟩, some "A", some "B", none, none, none, 100⟩
    (by decide) rfl

/-- C4: starting from a store with no history rows for `(uid, sid)`, after
any sequence of appends under that session, `GET /api/chat/history` with
that session id returns exactly the appended rows, sorted by creation time
non-decreasing, with count equal to the number of appends; and with the
session id omitted it returns all of the user's history rows (those with an
absent session id included) in one non-decreasing creation-time order. -/
theorem chat_history_log_roundtrip (uid sid : Nat) (st : Store)
    (reqs : List AppendReq)
    (hclean : st.history.filter
      (fun h => h.user_id == uid && h.session_id == some sid) = []) :
    (∃ rows,
      chatHistoryGet uid (some sid) (applyAppends uid (some sid) st reqs) =
        (⟨200, .jsonHistory rows⟩, applyAppends uid (some sid) st reqs) ∧
      rows.Perm (mkRows uid (some sid) st.nextHistoryId reqs) ∧
      rows.length = reqs.length ∧
      rows.Sorted (leKey HistoryRow.created_at)) ∧
    (∀ st2 : Store, ∃ rows,
      chatHistoryGet uid none st2 = (⟨200, .jsonHistory rows⟩, st2) ∧
      rows.Perm (st2.history.filter (fun h => h.user_id == uid)) ∧
      rows.Sorted (leKey HistoryRow.created_at)) := by
  constructor
  · have hfilter : (applyAppends uid (some sid) st reqs).history.filter
        (fun h => h.user_id == uid && h.session_id == some sid) =
        mkRows uid (some sid) st.nextHistoryId reqs := by
      rw [applyAppends_history, List.filter_append, hclean, mkRows_filter,
        List.nil_append]
    refine ⟨orderByAsc HistoryRow.created_at
      (mkRows uid (some sid) st.nextHistoryId reqs), ?_, ?_, ?_, ?_⟩
    · simp [chatHistoryGet, orderByAsc, hfilter]
    · exact List.perm_insertionSort _ _
    · rw [orderByAsc, (List.perm_insertionSort _ _).length_eq, mkRows_length]
    · exact List.sorted_insertionSort _ _
  · intro st2
    exact ⟨orderByAsc HistoryRow.created_at
        (st2.history.filter (fun h => h.user_id == uid)),
      by simp [chatHistoryGet, orderByAsc],
      List.perm_insertionSort _ _, List.sorted_insertionSort _ _⟩

/-- Witness for C4: two appends under session 1 starting from the empty
store. -/
theorem chat_history_log_roundtrip_witness :
    (∃ rows,
      chatHistoryGet 1 (some 1)
          (applyAppends 1 (some 1) emptyStore
            [⟨"user", "hi", 5⟩, ⟨"assistant", "hello", 6⟩]) =
        (⟨200, .jsonHistory rows⟩,
          applyAppends 1 (some 1) emptyStore
            [⟨"user", "hi", 5⟩, ⟨"assistant", "hello", 6⟩]) ∧
      rows.Perm (mkRows 1 (some 1) 1
        [⟨"user", "hi", 5⟩, ⟨"assistant", "hello", 6⟩]) ∧
      rows.length = 2 ∧
      rows.Sorted (leKey HistoryRow.created_at)) ∧
    (∀ st2 : Store, ∃ rows,
      chatHistoryGet 1 none st2 = (⟨200, .jsonHistory rows⟩, st2) ∧
      rows.Perm (st2.history.filter (fun h => h.user_id == 1)) ∧
      rows.Sorted (leKey HistoryRow.created_at)) :=
  chat_history_log_roundtrip 1 1 emptyStore
    [⟨"user", "hi", 5⟩, ⟨"assistant", "hello", 6⟩] rfl

/-- C5: an authenticated profile update followed by a profile read returns
exactly the five updated fields, while the row's id, email and stored
password hash are unchanged by the update. -/
theorem profile_update_get_roundtrip (uid : Nat) (req : ProfileReq)
    (st : Store) (u : UserRow)
    (hu : st.users.find? (fun x => x.id == uid) = some u) :
    (userProfilePut uid req st).1 = ⟨200, .jsonSuccess⟩ ∧
    userProfileGet uid (userProfilePut uid req st).2 =
      (⟨200, .jsonProfile (some ⟨u.id, u.email, req.firstName, req.lastName,
          req.mobile, req.bloodGroup, req.personalNotes⟩)⟩,
        (userProfilePut uid req st).2) ∧
    (∃ u2, (userProfilePut uid req st).2.users.find?
        (fun x => x.id == uid) = some u2 ∧
      u2.id = u.id ∧ u2.email = u.email ∧ u2.password = u.password) := by
  have hid : (u.id == uid) = true := by simpa using List.find?_some hu
  have hmap := find?_map_pres (fun x => x.id == uid)
    (fun x => if x.id == uid then
      { x with
        first_name := req.firstName
        last_name := req.lastName
        mobile := req.mobile
        blood_group := req.bloodGroup
        personal_notes := req.personalNotes }
      else x)
    (fun x => by by_cases h : x.id == uid <;> simp [h])
    st.users
  refine ⟨rfl, ?_, ?_⟩
  · simp only [userProfileGet, userProfilePut, hmap, hu, Option.map_some',
      hid, if_true, UserRow.toView]
  · simp only [userProfilePut, hmap, hu, Option.map_some', hid, if_true]
    exact ⟨_, rfl, rfl, rfl, rfl⟩

/-- Witness for C5: update the registered user's profile in a concrete
store and read it back. -/
theorem profile_update_get_roundtrip_witness :
    (userProfilePut 1 ⟨some "A2", some "B2", some "12345", some "B+", some "n"⟩
        (authRegister 11 100 ⟨"a@x.com", "pw1", some "A", some "B"⟩
          emptyStore).2).1 = ⟨200, .jsonSuccess⟩ ∧
    userProfileGet 1 (userProfilePut 1
        ⟨some "A2", some "B2", some "12345", some "B+", some "n"⟩
        (authRegister 11 100 ⟨"a@x.com", "pw1", some "A", some "B"⟩
          emptyStore).2).2 =
      (⟨200, .jsonProfile (some ⟨1, "a@x.com", some "A2", some "B2",
          some "12345", some "B+", some "n"⟩)⟩,
        (userProfilePut 1 ⟨some "A2", some "B2", some "12345", some "B+", some "n"⟩
          (authRegister 11 100 ⟨"a@x.com", "pw1", some "A", some "B"⟩
            emptyStore).2).2) ∧
    (∃ u2, (userProfilePut 1
        ⟨some "A2", some "B2", some "12345", some "B+", some "n"⟩
        (authRegister 11 100 ⟨"a@x.com", "pw1", some "A", some "B"⟩
          emptyStore).2).2.users.find? (fun x => x.id == 1) = some u2 ∧
      u2.id = 1 ∧ u2.email = "a@x.com" ∧ u2.password = ⟨"pw1", 11⟩) :=
  profile_update_get_roundtrip 1
    ⟨some "A2", some "B2", some "12345", some "B+", some "n"⟩
    (authRegister 11 100 ⟨"a@x.com", "pw1", some "A", some "B"⟩ emptyStore).2
    ⟨1, "a@x.com", ⟨"pw1", 11⟩, some "A", some "B", none, none, none, 100⟩
    (by decide)

/-- C6: for every user, `GET /api/chat/sessions` returns exactly the user's
session rows sorted by creation time descending, and `GET /api/reports`
returns exactly the user's report rows sorted by creation time
descending. -/
theorem sessions_reports_most_recent_first (uid : Nat) (st : Store) :
    (∃ rows, chatSessionsGet uid st = (⟨200, .jsonSessions rows⟩, st) ∧
      rows.Perm (st.sessions.filter (fun s => s.user_id == uid)) ∧
      rows.Sorted (geKey SessionRow.created_at)) ∧
    (∃ rows, reportsGet uid st = (⟨200, .jsonReports rows⟩, st) ∧
      rows.Perm (st.reports.filter (fun r => r.user_id == uid)) ∧
      rows.Sorted (geKey ReportRow.created_at)) :=
  ⟨⟨orderByDesc SessionRow.created_at
      (st.sessions.filter (fun s => s.user_id == uid)), rfl,
      List.perm_insertionSort _ _, List.sorted_insertionSort _ _⟩,
    ⟨orderByDesc ReportRow.created_at
      (st.reports.filter (fun r => r.user_id == uid)), rfl,
      List.perm_insertionSort _ _, List.sorted_insertionSort _ _⟩⟩

/-- C7 counterexample: `POST /api/chat/history` performs no validation of
the role field, so an append with role "doctor" is accepted (status 200)
and the stored entry's role is neither "user" nor "assistant", refuting
the claim that every persisted entry has one of the two enumerated
roles. -/
theorem role_not_validated_counterexample :
    (chatHistoryPost 5 7 ⟨"doctor", "take two pills", none⟩
      emptyStore).1.status = 200 ∧
    ∃ r ∈ (chatHistoryPost 5 7 ⟨"doctor", "take two pills", none⟩
        emptyStore).2.history,
      r.role ≠ "user" ∧ r.role ≠ "assistant" := by
  refine ⟨rfl, ⟨⟨1, 7, none, "doctor", "take two pills", 5⟩, ?_, ?_, ?_⟩⟩ <;>
    decide

/-- C7 amended: the server stores exactly the role string the caller
supplies; consequently the stored role is one of the two enumerated values
whenever the caller supplies one of them (caller discipline), and every
entry of the store after such an append either predates it or carries one
of the two enumerated roles. -/
theorem role_stored_verbatim (now uid : Nat) (req : HistoryReq) (st : Store)
    (hrole : req.role = "user" ∨ req.role = "assistant") :
    (chatHistoryPost now uid req st).1 = ⟨200, .jsonSuccess⟩ ∧
    (chatHistoryPost now uid req st).2.history =
      st.history ++
        [⟨st.nextHistoryId, uid, req.sessionId, req.role, req.content, now⟩] ∧
    ∀ r ∈ (chatHistoryPost now uid req st).2.history,
      r ∈ st.history ∨ r.role = "user" ∨ r.role = "assistant" := by
  refine ⟨rfl, rfl, fun r hr => ?_⟩
  simp only [chatHistoryPost, List.mem_append, List.mem_singleton] at hr
  rcases hr with h | h
  · exact Or.inl h
  · subst h
    exact Or.inr hrole

/-- Witness for the amended C7: an append with role "user" into the empty
store. -/
theorem role_stored_verbatim_witness :
    (chatHistoryPost 5 1 ⟨"user", "hi", some 1⟩ emptyStore).1 =
      ⟨200, .jsonSuccess⟩ ∧
    (chatHistoryPost 5 1 ⟨"user", "hi", some 1⟩ emptyStore).2.history =
      [⟨1, 1, some 1, "user", "hi", 5⟩] ∧
    ∀ r ∈ (chatHistoryPost 5 1 ⟨"user", "hi", some 1⟩ emptyStore).2.history,
      r ∈ emptyStore.history ∨ r.role = "user" ∨ r.role = "assistant" :=
  role_stored_verbatim 5 1 ⟨"user", "hi", some 1⟩ emptyStore (Or.inl rfl)

/-- C8: the profile endpoint never reads the stored password hash — for any
store, rewriting every user's password hash (in particular the queried
user's) leaves the `GET /api/user/profile` response unchanged, so the hash
never flows into the profile output. -/
theorem profile_hash_noninterference (uid : Nat) (st : Store)
    (f : UserRow → HashedPw) :
    (userProfileGet uid
      { st with users := st.users.map (fun u => { u with password := f u }) }).1 =
      (userProfileGet uid st).1 := by
  have hmap := find?_map_pres (fun x => x.id == uid)
    (fun u => { u with password := f u }) (fun u => rfl) st.users
  simp only [userProfileGet, hmap, Option.map_map]
  rfl

/-- C9: a user with no sessions, no history entries and no reports gets a
200 with an empty list from `GET /api/chat/sessions`, `GET
/api/chat/history` (with or without a session id) and `GET /api/reports`,
not an error. -/
theorem empty_user_listings (uid : Nat) (st : Store)
    (hs : st.sessions.filter (fun s => s.user_id == uid) = [])
    (hh : st.history.filter (fun h => h.user_id == uid) = [])
    (hr : st.reports.filter (fun r => r.user_id == uid) = []) :
    chatSessionsGet uid st = (⟨200, .jsonSessions []⟩, st) ∧
    (∀ sessionId : Option Nat,
      chatHistoryGet uid sessionId st = (⟨200, .jsonHistory []⟩, st)) ∧
    reportsGet uid st = (⟨200, .jsonReports []⟩, st) := by
  refine ⟨?_, ?_, ?_⟩
  · simp [chatSessionsGet, hs, orderByDesc]
  · intro sessionId
    cases sessionId with
    | none => simp [chatHistoryGet, hh, orderByAsc]
    | some sid =>
      have h2 : st.history.filter
          (fun h => h.user_id == uid && h.session_id == some sid) = [] :=
        filter_conj_nil _ _ st.history hh
      simp [chatHistoryGet, h2, orderByAsc]
  · simp [reportsGet, hr, orderByDesc]

/-- Witness for C9: the empty store. -/
theorem empty_user_listings_witness :
    chatSessionsGet 1 emptyStore = (⟨200, .jsonSessions []⟩, emptyStore) ∧
    (∀ sessionId : Option Nat,
      chatHistoryGet 1 sessionId emptyStore =
        (⟨200, .jsonHistory []⟩, emptyStore)) ∧
    reportsGet 1 emptyStore = (⟨200, .jsonReports []⟩, emptyStore) :=
  empty_user_listings 1 emptyStore rfl rfl rfl

/-- C10: the three listing endpoints only ever return rows owned by the
authenticated user, and appending another user's rows (a session, a
history entry — under any session id the caller queries — or a report)
leaves the authenticated user's responses unchanged. -/
theorem per_user_isolation (uid : Nat) (st : Store)
    (bs : SessionRow) (bh : HistoryRow) (br : ReportRow)
    (hbs : bs.user_id ≠ uid) (hbh : bh.user_id ≠ uid)
    (hbr : br.user_id ≠ uid) :
    (∃ rows, chatSessionsGet uid st = (⟨200, .jsonSessions rows⟩, st) ∧
      ∀ r ∈ rows, r.user_id = uid) ∧
    (∀ sessionId : Option Nat, ∃ rows,
      chatHistoryGet uid sessionId st = (⟨200, .jsonHistory rows⟩, st) ∧
      ∀ r ∈ rows, r.user_id = uid) ∧
    (∃ rows, reportsGet uid st = (⟨200, .jsonReports rows⟩, st) ∧
      ∀ r ∈ rows, r.user_id = uid) ∧
    (chatSessionsGet uid { st with sessions := st.sessions ++ [bs] }).1 =
      (chatSessionsGet uid st).1 ∧
    (∀ sessionId : Option Nat,
      (chatHistoryGet uid sessionId { st with history := st.history ++ [bh] }).1 =
        (chatHistoryGet uid sessionId st).1) ∧
    (reportsGet uid { st with reports := st.reports ++ [br] }).1 =
      (reportsGet uid st).1 := by
  have hbs' : (bs.user_id == uid) = false := by simp [hbs]
  have hbh' : (bh.user_id == uid) = false := by simp [hbh]
  have hbr' : (br.user_id == uid) = false := by simp [hbr]
  refine ⟨⟨_, rfl, ?_⟩, fun sessionId => ?_, ⟨_, rfl, ?_⟩, ?_, fun sessionId => ?_, ?_⟩
  · intro r hr
    have hr2 := (List.perm_insertionSort (geKey SessionRow.created_at) _).mem_iff.mp hr
    have := (List.mem_filter.mp hr2).2
    simpa using this
  · cases sessionId with
    | none =>
      refine ⟨_, rfl, fun r hr => ?_⟩
      have hr2 := (List.perm_insertionSort (leKey HistoryRow.created_at) _).mem_iff.mp hr
      have := (List.mem_filter.mp hr2).2
      simpa using this
    | some sid =>
      refine ⟨_, rfl, fun r hr => ?_⟩
      have hr2 := (List.perm_insertionSort (leKey HistoryRow.created_at) _).mem_iff.mp hr
      have := (List.mem_filter.mp hr2).2
      simp at this
      exact this.1
  · intro r hr
    have hr2 := (List.perm_insertionSort (geKey ReportRow.created_at) _).mem_iff.mp hr
    have := (List.mem_filter.mp hr2).2
    simpa using this
  · simp [chatSessionsGet, List.filter_append, List.filter_cons, hbs']
  · cases sessionId with
    | none => simp [chatHistoryGet, List.filter_append, List.filter_cons, hbh']
    | some sid => simp [chatHistoryGet, List.filter_append, List.filter_cons, hbh']
  · simp [reportsGet, List.filter_append, List.filter_cons, hbr']

/-- Witness for C10: user 1's views of a store holding only user 2's rows
are empty and insensitive to user 2's inserts. -/
theorem per_user_isolation_witness :
    (∃ rows, chatSessionsGet 1 emptyStore = (⟨200, .jsonSessions rows⟩, emptyStore) ∧
      ∀ r ∈ rows, r.user_id = 1) ∧
    (∀ sessionId : Option Nat, ∃ rows,
      chatHistoryGet 1 sessionId emptyStore = (⟨200, .jsonHistory rows⟩, emptyStore) ∧
      ∀ r ∈ rows, r.user_id = 1) ∧
    (∃ rows, reportsGet 1 emptyStore = (⟨200, .jsonReports rows⟩, emptyStore) ∧
      ∀ r ∈ rows, r.user_id = 1) ∧
    (chatSessionsGet 1 { emptyStore with
      sessions := emptyStore.sessions ++ [⟨1, 2, "t", 9⟩] }).1 =
      (chatSessionsGet 1 emptyStore).1 ∧
    (∀ sessionId : Option Nat,
      (chatHistoryGet 1 sessionId { emptyStore with
        history := emptyStore.history ++ [⟨1, 2, some 1, "user", "x", 9⟩] }).1 =
        (chatHistoryGet 1 sessionId emptyStore).1) ∧
    (reportsGet 1 { emptyStore with
      reports := emptyStore.reports ++ [⟨1, 2, "r.pdf", "a", 9⟩] }).1 =
      (reportsGet 1 emptyStore).1 :=
  per_user_isolation 1 emptyStore ⟨1, 2, "t", 9⟩ ⟨1, 2, some 1, "user", "x", 9⟩
    ⟨1, 2, "r.pdf", "a", 9⟩ (by decide) (by decide) (by decide)

end MyHealthAI
